import Mathlib

/-!
Verification of the session/game/dispatch core of `sky.py`.

The embedded fragment covers the module-level `games_db` dictionary, the
`guess_number_game` handler, the free-text router `handle_message`, and the
privileged `broadcast_command` handler.  External adapters (AI chat, weather,
downloads, WhatsApp relay) are modelled as opaque observable outputs; the
`random.randint(1, 100)` draw is passed in as an explicit argument `r`.
-/

/-- A game session: the dict `{"number": ..., "attempts": ...}` stored in
`games_db`.  `number` is `none` for Python `None`; Python truthiness of the
stored number is captured by `numTruthy`. -/
structure GameSession where
  number : Option Int
  attempts : Int
deriving DecidableEq, Repr

/-- The module-level `games_db` dict, user id to session. -/
abbrev GamesDb := List (Nat × GameSession)

/-- `games_db.get(uid)` / `uid in games_db` lookup. -/
def dbLookup : GamesDb → Nat → Option GameSession
  | [], _ => none
  | (k, v) :: rest, uid => if k = uid then some v else dbLookup rest uid

/-- `games_db[uid] = s` (insert or overwrite, as a Python dict assignment). -/
def dbInsert : GamesDb → Nat → GameSession → GamesDb
  | [], uid, s => [(uid, s)]
  | (k, v) :: rest, uid, s =>
      if k = uid then (uid, s) :: rest else (k, v) :: dbInsert rest uid s

/-- `del games_db[uid]`.  Dict keys are unique, so dropping every pair with
this key is the dict delete. -/
def dbErase : GamesDb → Nat → GamesDb
  | [], _ => []
  | (k, v) :: rest, uid =>
      if k = uid then dbErase rest uid else (k, v) :: dbErase rest uid

/-- Python truthiness of the stored `number` field: `None` and `0` are falsy. -/
def numTruthy : Option Int → Bool
  | none => false
  | some n => n != 0

/-- The fresh entry `{"number": None, "attempts": 0}`. -/
def freshSession : GameSession := { number := none, attempts := 0 }

/-- Decimal digit value of a character, as used by `int()`. -/
def digitVal (c : Char) : Option Nat :=
  if c.isDigit then some (c.toNat - '0'.toNat) else none

/-- Accumulate a run of decimal digits; fails on any non-digit. -/
def parseDigitsAux : List Char → Nat → Option Nat
  | [], acc => some acc
  | c :: cs, acc =>
      match digitVal c with
      | some d => parseDigitsAux cs (10 * acc + d)
      | none => none

/-- A non-empty all-digit run, else `none`. -/
def parseDigits : List Char → Option Nat
  | [] => none
  | c :: cs => parseDigitsAux (c :: cs) 0

/-- Sign handling of Python `int()` on an already-stripped character list. -/
def pyIntChars : List Char → Option Int
  | [] => none
  | c :: cs =>
      if c = '-' then (parseDigits cs).map (fun n => -(n : Int))
      else if c = '+' then (parseDigits cs).map (fun n => (n : Int))
      else (parseDigits (c :: cs)).map (fun n => (n : Int))

/-- Strip leading and trailing whitespace, as `int()` does before parsing. -/
def stripChars (cs : List Char) : List Char :=
  ((cs.dropWhile Char.isWhitespace).reverse.dropWhile Char.isWhitespace).reverse

/-- Model of Python `int(text)`: strip surrounding whitespace, optional sign,
then a non-empty digit run; any failure raises, modelled as `none`. -/
def pyInt (s : String) : Option Int :=
  pyIntChars (stripChars s.toList)

/-- The AI chat providers of `handle_message`: Gemini preferred, ChatGPT
fallback. -/
inductive Provider
  | gemini
  | chatgpt
deriving DecidableEq, Repr

/-- The distinct replies the embedded handlers can send. -/
inductive Reply
  | rangeAnnounce
  | tooLow
  | tooHigh
  | sendNumber
  | correct (attempts : Int)
  | adminOnly
  | broadcastUsage
  | broadcastSent (msg : String)
  | thinking
deriving DecidableEq, Repr

/-- Observable outputs: a chat reply, or a call into an AI adapter (the
adapter's answer being relayed afterwards is external to the core). -/
inductive Out
  | reply (r : Reply)
  | callAI (p : Provider) (prompt : String)
deriving DecidableEq, Repr

/-- Is this output a call into an AI adapter? -/
def isCallAI : Out → Bool
  | Out.callAI _ _ => true
  | _ => false

/-- `guess_number_game(update, context)` from `sky.py`.  `text` is the message
text and `r` the value `random.randint(1, 100)` would return if drawn.
In the source, `attempts` is incremented in place before the comparison; the
equal branch then deletes the whole entry, so the increment is only visible in
the success reply, which is how the model renders it. -/
def guess_number_game (db : GamesDb) (uid : Nat) (text : String) (r : Int) :
    GamesDb × List Out :=
  let db1 := if (dbLookup db uid).isSome then db else dbInsert db uid freshSession
  let s := (dbLookup db1 uid).getD freshSession
  if numTruthy s.number then
    match pyInt text with
    | some guess =>
        let s1 : GameSession := { number := s.number, attempts := s.attempts + 1 }
        let target := s.number.getD 0
        if guess < target then (dbInsert db1 uid s1, [Out.reply Reply.tooLow])
        else if target < guess then (dbInsert db1 uid s1, [Out.reply Reply.tooHigh])
        else (dbErase db1 uid, [Out.reply (Reply.correct s1.attempts)])
    | none => (db1, [Out.reply Reply.sendNumber])
  else
    (dbInsert db1 uid { number := some r, attempts := 0 },
     [Out.reply Reply.rangeAnnounce])

/-- Python `text.startswith(c)` for a single-character marker. -/
def startsWithChar (s : String) (c : Char) : Bool :=
  match s.toList with
  | [] => false
  | d :: _ => d == c

/-- The routing test `user_id in games_db and games_db[user_id]["number"]`. -/
def activeGuard (db : GamesDb) (uid : Nat) : Bool :=
  match dbLookup db uid with
  | some s => numTruthy s.number
  | none => false

/-- `handle_message(update, context)` from `sky.py`.  `cfg` is the truthiness
of `GEMINI_API_KEY`; `r` is the random draw forwarded to the game handler. -/
def handle_message (cfg : Bool) (db : GamesDb) (uid : Nat) (text : String)
    (r : Int) : GamesDb × List Out :=
  if activeGuard db uid then
    guess_number_game db uid text r
  else if startsWithChar text '/' then
    (db, [])
  else
    (db, [Out.reply Reply.thinking,
          Out.callAI (if cfg then Provider.gemini else Provider.chatgpt) text])

/-- `broadcast_command(update, context)` from `sky.py`.  `admins` is
`ADMIN_IDS`; `args` is `context.args`. -/
def broadcast_command (admins : List Nat) (db : GamesDb) (uid : Nat)
    (args : List String) : GamesDb × List Out :=
  if uid ∉ admins then (db, [Out.reply Reply.adminOnly])
  else if args = [] then (db, [Out.reply Reply.broadcastUsage])
  else (db, [Out.reply (Reply.broadcastSent (String.intercalate " " args))])

/-- Inbound events reaching the handlers that can touch `games_db`.  `cmdOther`
stands for every other registered handler (start, help, chatgpt, youtube,
whatsapp, weather, buttons): none of them reads or writes `games_db`. -/
inductive Event
  | cmdGame (uid : Nat) (text : String) (r : Int)
  | msgText (uid : Nat) (text : String) (r : Int)
  | cmdBroadcast (uid : Nat) (args : List String)
  | cmdOther (uid : Nat)
deriving DecidableEq, Repr

/-- The random draw carried by an event is a value `randint(1, 100)` can
return. -/
def drawValid : Event → Prop
  | Event.cmdGame _ _ r => 1 ≤ r ∧ r ≤ 100
  | Event.msgText _ _ r => 1 ≤ r ∧ r ≤ 100
  | _ => True

instance : DecidablePred drawValid := by
  intro e
  cases e <;> simp [drawValid] <;> infer_instance

/-- One dispatcher step: route an event to its handler. -/
def dispatch (cfg : Bool) (admins : List Nat) (db : GamesDb) :
    Event → GamesDb × List Out
  | Event.cmdGame uid text r => guess_number_game db uid text r
  | Event.msgText uid text r => handle_message cfg db uid text r
  | Event.cmdBroadcast uid args => broadcast_command admins db uid args
  | Event.cmdOther _ => (db, [])

/-- Run a sequence of events through the dispatcher, keeping the store. -/
def runEvents (cfg : Bool) (admins : List Nat) (db : GamesDb) :
    List Event → GamesDb
  | [] => db
  | e :: rest => runEvents cfg admins (dispatch cfg admins db e).1 rest

/-- Feed a sequence of messages (each with its would-be random draw) from one
user into `guess_number_game`, collecting the outputs. -/
def runGuesses (db : GamesDb) (uid : Nat) :
    List (String × Int) → GamesDb × List Out
  | [] => (db, [])
  | (m, r) :: rest =>
      let step := guess_number_game db uid m r
      let res := runGuesses step.1 uid rest
      (res.1, step.2 ++ res.2)

/-- Number of messages in the list that Python `int()` accepts. -/
def numericCount (msgs : List (String × Int)) : Nat :=
  (msgs.filter (fun p => (pyInt p.1).isSome)).length

/-- A stored session is well-formed: target drawn from `[1, 100]` (never the
`None`/`0` placeholder) and a non-negative attempts counter. -/
def sessionOK (s : GameSession) : Bool :=
  (match s.number with
   | some t => decide (1 ≤ t) && decide (t ≤ 100)
   | none => false) && decide (0 ≤ s.attempts)

/-- Store invariant: every entry is well-formed. -/
def dbInv (db : GamesDb) : Prop := ∀ p ∈ db, sessionOK p.2 = true

instance (db : GamesDb) : Decidable (dbInv db) := by
  unfold dbInv
  infer_instance

/-! ### Store lemmas -/

theorem dbLookup_insert_self (db : GamesDb) (uid : Nat) (s : GameSession) :
    dbLookup (dbInsert db uid s) uid = some s := by
  induction db with
  | nil => simp [dbInsert, dbLookup]
  | cons p rest ih =>
      obtain ⟨k, v⟩ := p
      by_cases h : k = uid
      · simp [dbInsert, dbLookup, h]
      · simp [dbInsert, dbLookup, h, ih]

theorem dbLookup_insert_ne (db : GamesDb) (uid v : Nat) (s : GameSession)
    (h : v ≠ uid) : dbLookup (dbInsert db uid s) v = dbLookup db v := by
  induction db with
  | nil =>
      simp [dbInsert, dbLookup]
      omega
  | cons p rest ih =>
      obtain ⟨k, w⟩ := p
      by_cases hk : k = uid
      · subst hk
        have hkv : k ≠ v := Ne.symm h
        simp [dbInsert, dbLookup, hkv]
      · simp [dbInsert, dbLookup, hk, ih]

theorem dbLookup_erase_self (db : GamesDb) (uid : Nat) :
    dbLookup (dbErase db uid) uid = none := by
  induction db with
  | nil => simp [dbErase, dbLookup]
  | cons p rest ih =>
      obtain ⟨k, v⟩ := p
      by_cases h : k = uid
      · simp [dbErase, h, ih]
      · simp [dbErase, dbLookup, h, ih]

theorem dbLookup_erase_ne (db : GamesDb) (uid v : Nat) (h : v ≠ uid) :
    dbLookup (dbErase db uid) v = dbLookup db v := by
  induction db with
  | nil => simp [dbErase, dbLookup]
  | cons p rest ih =>
      obtain ⟨k, w⟩ := p
      by_cases hk : k = uid
      · subst hk
        have hkv : k ≠ v := Ne.symm h
        simp [dbErase, dbLookup, hkv, ih]
      · simp [dbErase, dbLookup, hk, ih]

theorem dbInsert_dbInsert (db : GamesDb) (uid : Nat) (s s' : GameSession) :
    dbInsert (dbInsert db uid s) uid s' = dbInsert db uid s' := by
  induction db with
  | nil => simp [dbInsert]
  | cons p rest ih =>
      obtain ⟨k, v⟩ := p
      by_cases h : k = uid
      · simp [dbInsert, h]
      · simp [dbInsert, h, ih]

theorem mem_dbInsert (db : GamesDb) (uid : Nat) (s : GameSession)
    (p : Nat × GameSession) (hp : p ∈ dbInsert db uid s) :
    p = (uid, s) ∨ p ∈ db := by
  induction db with
  | nil =>
      simp [dbInsert] at hp
      exact Or.inl hp
  | cons q rest ih =>
      obtain ⟨k, v⟩ := q
      by_cases h : k = uid
      · simp [dbInsert, h] at hp
        rcases hp with hp | hp
        · exact Or.inl hp
        · exact Or.inr (List.mem_cons_of_mem _ hp)
      · simp [dbInsert, h] at hp
        rcases hp with hp | hp
        · exact Or.inr (by simp [hp])
        · rcases ih hp with hh | hh
          · exact Or.inl hh
          · exact Or.inr (List.mem_cons_of_mem _ hh)

theorem mem_dbErase (db : GamesDb) (uid : Nat) (p : Nat × GameSession)
    (hp : p ∈ dbErase db uid) : p ∈ db := by
  induction db with
  | nil => simp [dbErase] at hp
  | cons q rest ih =>
      obtain ⟨k, v⟩ := q
      by_cases h : k = uid
      · simp [dbErase, h] at hp
        exact List.mem_cons_of_mem _ (ih hp)
      · simp [dbErase, h] at hp
        rcases hp with hp | hp
        · simp [hp]
        · exact List.mem_cons_of_mem _ (ih hp)

theorem dbLookup_mem (db : GamesDb) (uid : Nat) (s : GameSession)
    (h : dbLookup db uid = some s) : (uid, s) ∈ db := by
  induction db with
  | nil => simp [dbLookup] at h
  | cons p rest ih =>
      obtain ⟨k, v⟩ := p
      by_cases hk : k = uid
      · subst hk
        simp [dbLookup] at h
        simp [h]
      · simp [dbLookup, hk] at h
        exact List.mem_cons_of_mem _ (ih h)

/-! ### Branch lemmas for `guess_number_game` -/

theorem guess_number_game_fresh (db : GamesDb) (uid : Nat) (text : String)
    (r : Int) (hl : dbLookup db uid = none) :
    guess_number_game db uid text r =
      (dbInsert db uid { number := some r, attempts := 0 },
       [Out.reply Reply.rangeAnnounce]) := by
  simp [guess_number_game, hl, dbLookup_insert_self, freshSession, numTruthy,
    dbInsert_dbInsert]

theorem guess_number_game_restart (db : GamesDb) (uid : Nat) (s : GameSession)
    (text : String) (r : Int) (hl : dbLookup db uid = some s)
    (ht : numTruthy s.number = false) :
    guess_number_game db uid text r =
      (dbInsert db uid { number := some r, attempts := 0 },
       [Out.reply Reply.rangeAnnounce]) := by
  simp [guess_number_game, hl, ht]

theorem guess_number_game_nonnum (db : GamesDb) (uid : Nat) (s : GameSession)
    (text : String) (r : Int) (hl : dbLookup db uid = some s)
    (ht : numTruthy s.number = true) (hp : pyInt text = none) :
    guess_number_game db uid text r = (db, [Out.reply Reply.sendNumber]) := by
  simp [guess_number_game, hl, ht, hp]

theorem guess_number_game_low (db : GamesDb) (uid : Nat) (t a : Int)
    (text : String) (r g : Int)
    (hl : dbLookup db uid = some { number := some t, attempts := a })
    (ht : t ≠ 0) (hp : pyInt text = some g) (hg : g < t) :
    guess_number_game db uid text r =
      (dbInsert db uid { number := some t, attempts := a + 1 },
       [Out.reply Reply.tooLow]) := by
  simp [guess_number_game, hl, numTruthy, ht, hp, hg]

theorem guess_number_game_high (db : GamesDb) (uid : Nat) (t a : Int)
    (text : String) (r g : Int)
    (hl : dbLookup db uid = some { number := some t, attempts := a })
    (ht : t ≠ 0) (hp : pyInt text = some g) (hg : t < g) :
    guess_number_game db uid text r =
      (dbInsert db uid { number := some t, attempts := a + 1 },
       [Out.reply Reply.tooHigh]) := by
  have hng : ¬ g < t := not_lt.mpr hg.le
  simp [guess_number_game, hl, numTruthy, ht, hp, hng, hg]

theorem guess_number_game_win (db : GamesDb) (uid : Nat) (t a : Int)
    (text : String) (r : Int)
    (hl : dbLookup db uid = some { number := some t, attempts := a })
    (ht : t ≠ 0) (hp : pyInt text = some t) :
    guess_number_game db uid text r =
      (dbErase db uid, [Out.reply (Reply.correct (a + 1))]) := by
  simp [guess_number_game, hl, numTruthy, ht, hp]

/-- All outputs of the game handler are plain replies, never AI calls. -/
theorem guess_number_game_no_callAI (db : GamesDb) (uid : Nat) (text : String)
    (r : Int) : ∀ o ∈ (guess_number_game db uid text r).2, isCallAI o = false := by
  intro o ho
  rcases hl : dbLookup db uid with _ | s
  · rw [guess_number_game_fresh db uid text r hl] at ho
    simp at ho
    simp [ho, isCallAI]
  · rcases ht : numTruthy s.number with _ | _
    · rw [guess_number_game_restart db uid s text r hl ht] at ho
      simp at ho
      simp [ho, isCallAI]
    · obtain ⟨n, a⟩ := s
      rcases hn : n with _ | t
      · rw [hn] at ht
        simp [numTruthy] at ht
      · subst hn
        have htz : t ≠ 0 := by
          simpa [numTruthy] using ht
        rcases hp : pyInt text with _ | g
        · rw [guess_number_game_nonnum db uid _ text r hl ht hp] at ho
          simp at ho
          simp [ho, isCallAI]
        · rcases lt_trichotomy g t with hg | hg | hg
          · rw [guess_number_game_low db uid t a text r g hl htz hp hg] at ho
            simp at ho
            simp [ho, isCallAI]
          · subst hg
            rw [guess_number_game_win db uid g a text r hl htz hp] at ho
            simp at ho
            simp [ho, isCallAI]
          · rw [guess_number_game_high db uid t a text r g hl htz hp hg] at ho
            simp at ho
            simp [ho, isCallAI]

/-! ### Trace lemmas -/

theorem runGuesses_append (uid : Nat) (xs ys : List (String × Int)) :
    ∀ db : GamesDb,
    runGuesses db uid (xs ++ ys) =
      ((runGuesses (runGuesses db uid xs).1 uid ys).1,
       (runGuesses db uid xs).2 ++ (runGuesses (runGuesses db uid xs).1 uid ys).2) := by
  induction xs with
  | nil => intro db; simp [runGuesses]
  | cons p rest ih =>
      intro db
      obtain ⟨m, r⟩ := p
      simp [runGuesses, ih]

theorem numericCount_cons_none (m : String) (rm : Int)
    (rest : List (String × Int)) (hp : pyInt m = none) :
    numericCount ((m, rm) :: rest) = numericCount rest := by
  simp [numericCount, hp]

theorem numericCount_cons_some (m : String) (rm g : Int)
    (rest : List (String × Int)) (hp : pyInt m = some g) :
    numericCount ((m, rm) :: rest) = numericCount rest + 1 := by
  simp [numericCount, hp, Nat.add_comm]

/-- While no guess hits the target, the session survives, the target is
unchanged, and `attempts` grows by exactly the number of numeric guesses. -/
theorem runGuesses_nonwinning (uid : Nat) (t : Int) (msgs : List (String × Int)) :
    ∀ (db : GamesDb) (a : Int),
    dbLookup db uid = some { number := some t, attempts := a } → t ≠ 0 →
    (∀ p ∈ msgs, pyInt p.1 ≠ some t) →
    dbLookup (runGuesses db uid msgs).1 uid =
      some { number := some t, attempts := a + (numericCount msgs : Int) } ∧
    ∀ v, v ≠ uid → dbLookup (runGuesses db uid msgs).1 v = dbLookup db v := by
  induction msgs with
  | nil =>
      intro db a hl _ _
      simp [runGuesses, numericCount, hl]
  | cons p rest ih =>
      intro db a hl ht hnw
      obtain ⟨m, rm⟩ := p
      have hnwrest : ∀ q ∈ rest, pyInt q.1 ≠ some t := by
        intro q hq
        exact hnw q (List.mem_cons_of_mem _ hq)
      rcases hp : pyInt m with _ | g
      · have hstep := guess_number_game_nonnum db uid _ m rm hl (by simp [numTruthy, ht]) hp
        have := ih db a hl ht hnwrest
        simp [runGuesses, hstep, numericCount_cons_none m rm rest hp]
        exact this
      · have hgne : g ≠ t := by
          intro hgt
          exact hnw (m, rm) (by simp) (by simp [hp, hgt])
        have hcount := numericCount_cons_some m rm g rest hp
        rcases lt_trichotomy g t with hg | hg | hg
        · have hstep := guess_number_game_low db uid t a m rm g hl ht hp hg
          have hl' : dbLookup (dbInsert db uid { number := some t, attempts := a + 1 }) uid =
              some { number := some t, attempts := a + 1 } := dbLookup_insert_self _ _ _
          obtain ⟨h1, h2⟩ := ih _ (a + 1) hl' ht hnwrest
          refine ⟨?_, ?_⟩
          · rw [runGuesses]
            simp only [hstep]
            rw [h1, hcount]
            push_cast
            ring_nf
          · intro v hv
            rw [runGuesses]
            simp only [hstep]
            rw [h2 v hv, dbLookup_insert_ne db uid v _ hv]
        · exact absurd hg hgne
        · have hstep := guess_number_game_high db uid t a m rm g hl ht hp hg
          have hl' : dbLookup (dbInsert db uid { number := some t, attempts := a + 1 }) uid =
              some { number := some t, attempts := a + 1 } := dbLookup_insert_self _ _ _
          obtain ⟨h1, h2⟩ := ih _ (a + 1) hl' ht hnwrest
          refine ⟨?_, ?_⟩
          · rw [runGuesses]
            simp only [hstep]
            rw [h1, hcount]
            push_cast
            ring_nf
          · intro v hv
            rw [runGuesses]
            simp only [hstep]
            rw [h2 v hv, dbLookup_insert_ne db uid v _ hv]

/-- A command text (leading slash after stripping) never parses as an int. -/
theorem pyInt_head_slash (s : String)
    (h : (stripChars s.toList).head? = some '/') : pyInt s = none := by
  unfold pyInt
  rcases hcs : stripChars s.toList with _ | ⟨c, cs⟩
  · rw [hcs] at h
    simp at h
  · rw [hcs] at h
    simp at h
    subst h
    simp [pyIntChars, parseDigits, parseDigitsAux, digitVal]

/-! ### Invariant preservation -/

theorem guess_number_game_preserves_inv (db : GamesDb) (uid : Nat)
    (text : String) (r : Int) (hr1 : 1 ≤ r) (hr2 : r ≤ 100) (hdb : dbInv db) :
    dbInv (guess_number_game db uid text r).1 := by
  have hnew : sessionOK { number := some r, attempts := 0 } = true := by
    simp [sessionOK]
    omega
  rcases hl : dbLookup db uid with _ | s
  · rw [guess_number_game_fresh db uid text r hl]
    intro p hp
    rcases mem_dbInsert db uid _ p hp with h | h
    · rw [h]
      exact hnew
    · exact hdb p h
  · rcases ht : numTruthy s.number with _ | _
    · rw [guess_number_game_restart db uid s text r hl ht]
      intro p hp
      rcases mem_dbInsert db uid _ p hp with h | h
      · rw [h]
        exact hnew
      · exact hdb p h
    · obtain ⟨n, a⟩ := s
      rcases hn : n with _ | t
      · rw [hn] at ht
        simp [numTruthy] at ht
      · subst hn
        have htz : t ≠ 0 := by
          simpa [numTruthy] using ht
        have hsOK := hdb _ (dbLookup_mem db uid _ hl)
        simp [sessionOK] at hsOK
        have hinc : sessionOK { number := some t, attempts := a + 1 } = true := by
          simp [sessionOK]
          omega
        rcases hp : pyInt text with _ | g
        · rw [guess_number_game_nonnum db uid _ text r hl ht hp]
          exact hdb
        · rcases lt_trichotomy g t with hg | hg | hg
          · rw [guess_number_game_low db uid t a text r g hl htz hp hg]
            intro p hp'
            rcases mem_dbInsert db uid _ p hp' with h | h
            · rw [h]
              exact hinc
            · exact hdb p h
          · subst hg
            rw [guess_number_game_win db uid g a text r hl htz hp]
            intro p hp'
            exact hdb p (mem_dbErase db uid p hp')
          · rw [guess_number_game_high db uid t a text r g hl htz hp hg]
            intro p hp'
            rcases mem_dbInsert db uid _ p hp' with h | h
            · rw [h]
              exact hinc
            · exact hdb p h

theorem handle_message_preserves_inv (cfg : Bool) (db : GamesDb) (uid : Nat)
    (text : String) (r : Int) (hr1 : 1 ≤ r) (hr2 : r ≤ 100) (hdb : dbInv db) :
    dbInv (handle_message cfg db uid text r).1 := by
  unfold handle_message
  rcases hg : activeGuard db uid with _ | _
  · by_cases hs : startsWithChar text '/' = true <;> simp [hg, hs] <;> exact hdb
  · simp [hg]
    exact guess_number_game_preserves_inv db uid text r hr1 hr2 hdb

theorem broadcast_command_fst (admins : List Nat) (db : GamesDb) (uid : Nat)
    (args : List String) : (broadcast_command admins db uid args).1 = db := by
  unfold broadcast_command
  split
  · rfl
  · split <;> rfl

theorem dispatch_preserves_inv (cfg : Bool) (admins : List Nat) (db : GamesDb)
    (e : Event) (hv : drawValid e) (hdb : dbInv db) :
    dbInv (dispatch cfg admins db e).1 := by
  cases e with
  | cmdGame uid text r =>
      simp [drawValid] at hv
      exact guess_number_game_preserves_inv db uid text r hv.1 hv.2 hdb
  | msgText uid text r =>
      simp [drawValid] at hv
      exact handle_message_preserves_inv cfg db uid text r hv.1 hv.2 hdb
  | cmdBroadcast uid args =>
      rw [dispatch, broadcast_command_fst]
      exact hdb
  | cmdOther uid => exact hdb

theorem runEvents_preserves_inv (cfg : Bool) (admins : List Nat)
    (evs : List Event) : ∀ db : GamesDb, dbInv db → (∀ e ∈ evs, drawValid e) →
    dbInv (runEvents cfg admins db evs) := by
  induction evs with
  | nil =>
      intro db hdb _
      exact hdb
  | cons e rest ih =>
      intro db hdb hv
      rw [runEvents]
      refine ih _ ?_ ?_
      · exact dispatch_preserves_inv cfg admins db e (hv e (by simp)) hdb
      · intro e' he'
        exact hv e' (List.mem_cons_of_mem _ he')

/-- Under the store invariant, the "falsy target" routing guard is the same
test as "the user has an entry in the store". -/
theorem activeGuard_eq_isSome (db : GamesDb) (hdb : dbInv db) (uid : Nat) :
    activeGuard db uid = (dbLookup db uid).isSome := by
  unfold activeGuard
  rcases hl : dbLookup db uid with _ | s
  · simp
  · have hsOK := hdb _ (dbLookup_mem db uid _ hl)
    obtain ⟨n, a⟩ := s
    rcases hn : n with _ | t
    · subst hn
      simp [sessionOK] at hsOK
    · subst hn
      simp [sessionOK] at hsOK
      simp [numTruthy]
      omega

/-- Repeated unparsable messages leave the store untouched and each one yields
the "please send a number" reply. -/
theorem runGuesses_nonnumeric (uid : Nat) (s : GameSession)
    (msgs : List (String × Int)) :
    ∀ db : GamesDb, dbLookup db uid = some s → numTruthy s.number = true →
    (∀ p ∈ msgs, pyInt p.1 = none) →
    runGuesses db uid msgs =
      (db, msgs.map (fun _ => Out.reply Reply.sendNumber)) := by
  induction msgs with
  | nil =>
      intro db _ _ _
      simp [runGuesses]
  | cons p rest ih =>
      intro db hl ht hmsgs
      obtain ⟨m, rm⟩ := p
      have hstep := guess_number_game_nonnum db uid s m rm hl ht
        (hmsgs (m, rm) (by simp))
      have hrest := ih db hl ht (fun q hq => hmsgs q (List.mem_cons_of_mem _ hq))
      simp [runGuesses, hstep, hrest]

/-! ### Claims -/

/-- C1: for every user with no existing session, a start-game action creates
exactly one session for that user whose target is an integer in `[1, 100]` and
whose attempts counter equals `0`, and emits the range-announcement prompt. -/
theorem c1_start_creates_session (db : GamesDb) (uid : Nat) (text : String)
    (r : Int) (hl : dbLookup db uid = none) (hr1 : 1 ≤ r) (hr2 : r ≤ 100) :
    dbLookup (guess_number_game db uid text r).1 uid =
      some { number := some r, attempts := 0 } ∧
    1 ≤ r ∧ r ≤ 100 ∧
    (∀ v, v ≠ uid →
      dbLookup (guess_number_game db uid text r).1 v = dbLookup db v) ∧
    (guess_number_game db uid text r).2 = [Out.reply Reply.rangeAnnounce] := by
  rw [guess_number_game_fresh db uid text r hl]
  exact ⟨dbLookup_insert_self db uid _, hr1, hr2,
    fun v hv => dbLookup_insert_ne db uid v _ hv, rfl⟩

theorem c1_start_creates_session_witness :
    dbLookup ([] : GamesDb) 1 = none ∧ (1 : Int) ≤ 42 ∧ (42 : Int) ≤ 100 ∧
    (dbLookup (guess_number_game [] 1 "/game" 42).1 1 =
        some { number := some 42, attempts := 0 } ∧
      (1 : Int) ≤ 42 ∧ (42 : Int) ≤ 100 ∧
      (∀ v, v ≠ 1 →
        dbLookup (guess_number_game [] 1 "/game" 42).1 v =
          dbLookup ([] : GamesDb) v) ∧
      (guess_number_game [] 1 "/game" 42).2 = [Out.reply Reply.rangeAnnounce]) :=
  ⟨rfl, by decide, by decide,
    c1_start_creates_session [] 1 "/game" 42 rfl (by decide) (by decide)⟩

/-- C2: for every active session, any number of messages that do not parse as
integers leave the store (hence the session's target and attempts) unchanged,
and each one emits the "please send a number" reply. -/
theorem c2_nonnumeric_guesses_no_change (db : GamesDb) (uid : Nat)
    (s : GameSession) (msgs : List (String × Int))
    (hl : dbLookup db uid = some s) (ht : numTruthy s.number = true)
    (hmsgs : ∀ p ∈ msgs, pyInt p.1 = none) :
    runGuesses db uid msgs =
      (db, msgs.map (fun _ => Out.reply Reply.sendNumber)) ∧
    dbLookup (runGuesses db uid msgs).1 uid = some s := by
  have hmain := runGuesses_nonnumeric uid s msgs db hl ht hmsgs
  refine ⟨hmain, ?_⟩
  rw [hmain]
  exact hl

theorem c2_nonnumeric_guesses_no_change_witness :
    dbLookup [(1, { number := some 50, attempts := 2 })] 1 =
      some { number := some 50, attempts := 2 } ∧
    numTruthy (some 50) = true ∧
    (∀ p ∈ [("hello", (7 : Int)), ("7up", 9), ("", 3)], pyInt p.1 = none) ∧
    (runGuesses [(1, { number := some 50, attempts := 2 })] 1
        [("hello", (7 : Int)), ("7up", 9), ("", 3)] =
      ([(1, { number := some 50, attempts := 2 })],
       [Out.reply Reply.sendNumber, Out.reply Reply.sendNumber,
        Out.reply Reply.sendNumber]) ∧
    dbLookup (runGuesses [(1, { number := some 50, attempts := 2 })] 1
        [("hello", (7 : Int)), ("7up", 9), ("", 3)]).1 1 =
      some { number := some 50, attempts := 2 }) :=
  ⟨by decide, by decide, by decide,
    c2_nonnumeric_guesses_no_change _ 1 _ _ (by decide) (by decide) (by decide)⟩

/-- C3: for every session started fresh (attempts `0`), if no earlier guess in
the run equals the target and the final message parses to the target, the run
removes the user's session (a subsequent lookup is `none`) and its last output
is the success reply whose attempts count is the number of messages that
parsed as integers, the winning one included. -/
theorem c3_winning_guess_removes_session (db : GamesDb) (uid : Nat) (t : Int)
    (msgs : List (String × Int)) (w : String) (wr : Int)
    (hl : dbLookup db uid = some { number := some t, attempts := 0 })
    (ht : t ≠ 0) (hnw : ∀ p ∈ msgs, pyInt p.1 ≠ some t)
    (hw : pyInt w = some t) :
    dbLookup (runGuesses db uid (msgs ++ [(w, wr)])).1 uid = none ∧
    (runGuesses db uid (msgs ++ [(w, wr)])).2.getLast? =
      some (Out.reply (Reply.correct ((numericCount msgs : Int) + 1))) := by
  obtain ⟨h1, h2⟩ := runGuesses_nonwinning uid t msgs db 0 hl ht hnw
  have h1' : dbLookup (runGuesses db uid msgs).1 uid =
      some { number := some t, attempts := (numericCount msgs : Int) } := by
    rw [h1]
    norm_num
  have hwin := guess_number_game_win (runGuesses db uid msgs).1 uid t
    ((numericCount msgs : Int)) w wr h1' ht hw
  have hsingle : runGuesses (runGuesses db uid msgs).1 uid [(w, wr)] =
      (dbErase (runGuesses db uid msgs).1 uid,
       [Out.reply (Reply.correct ((numericCount msgs : Int) + 1))]) := by
    simp [runGuesses, hwin]
  have happ := runGuesses_append uid msgs [(w, wr)] db
  rw [happ, hsingle]
  refine ⟨dbLookup_erase_self _ _, ?_⟩
  rw [List.getLast?_append_cons]
  rfl

theorem c3_winning_guess_removes_session_witness :
    dbLookup [(1, { number := some 50, attempts := 0 })] 1 =
      some { number := some 50, attempts := 0 } ∧
    (50 : Int) ≠ 0 ∧
    (∀ p ∈ [("200", (7 : Int)), ("nah", 9), ("30", 3)],
      pyInt p.1 ≠ some (50 : Int)) ∧
    pyInt "50" = some 50 ∧
    (dbLookup (runGuesses [(1, { number := some 50, attempts := 0 })] 1
        ([("200", (7 : Int)), ("nah", 9), ("30", 3)] ++ [("50", 4)])).1 1 = none ∧
    (runGuesses [(1, { number := some 50, attempts := 0 })] 1
        ([("200", (7 : Int)), ("nah", 9), ("30", 3)] ++ [("50", 4)])).2.getLast? =
      some (Out.reply (Reply.correct
        ((numericCount [("200", (7 : Int)), ("nah", 9), ("30", 3)] : Int) + 1)))) :=
  ⟨by decide, by decide, by decide, by decide,
    c3_winning_guess_removes_session _ 1 50 _ "50" 4 (by decide) (by decide)
      (by decide) (by decide)⟩

/-- C4: for an active session with target `t`, a parsed guess is evaluated by
the ordering rule after incrementing attempts: strictly below gives "too low"
and keeps the session, strictly above gives "too high" and keeps the session,
equal gives the success reply and removes the session. -/
theorem c4_ordering_rule (db : GamesDb) (uid : Nat) (t a : Int) (text : String)
    (r g : Int)
    (hl : dbLookup db uid = some { number := some t, attempts := a })
    (ht : t ≠ 0) (hp : pyInt text = some g) :
    (g < t →
      guess_number_game db uid text r =
        (dbInsert db uid { number := some t, attempts := a + 1 },
         [Out.reply Reply.tooLow]) ∧
      dbLookup (guess_number_game db uid text r).1 uid =
        some { number := some t, attempts := a + 1 }) ∧
    (t < g →
      guess_number_game db uid text r =
        (dbInsert db uid { number := some t, attempts := a + 1 },
         [Out.reply Reply.tooHigh]) ∧
      dbLookup (guess_number_game db uid text r).1 uid =
        some { number := some t, attempts := a + 1 }) ∧
    (g = t →
      (guess_number_game db uid text r).2 =
        [Out.reply (Reply.correct (a + 1))] ∧
      dbLookup (guess_number_game db uid text r).1 uid = none) := by
  refine ⟨?_, ?_, ?_⟩
  · intro hg
    have h := guess_number_game_low db uid t a text r g hl ht hp hg
    rw [h]
    exact ⟨rfl, dbLookup_insert_self db uid _⟩
  · intro hg
    have h := guess_number_game_high db uid t a text r g hl ht hp hg
    rw [h]
    exact ⟨rfl, dbLookup_insert_self db uid _⟩
  · intro hg
    subst hg
    have h := guess_number_game_win db uid g a text r hl ht hp
    rw [h]
    exact ⟨rfl, dbLookup_erase_self db uid⟩

theorem c4_ordering_rule_witness :
    dbLookup [(1, { number := some 50, attempts := 0 })] 1 =
      some { number := some 50, attempts := 0 } ∧
    (50 : Int) ≠ 0 ∧ pyInt "30" = some 30 ∧
    (((30 : Int) < 50 →
      guess_number_game [(1, { number := some 50, attempts := 0 })] 1 "30" 7 =
        (dbInsert [(1, { number := some 50, attempts := 0 })] 1
          { number := some 50, attempts := 0 + 1 },
         [Out.reply Reply.tooLow]) ∧
      dbLookup (guess_number_game [(1, { number := some 50, attempts := 0 })]
          1 "30" 7).1 1 = some { number := some 50, attempts := 0 + 1 }) ∧
    ((50 : Int) < 30 →
      guess_number_game [(1, { number := some 50, attempts := 0 })] 1 "30" 7 =
        (dbInsert [(1, { number := some 50, attempts := 0 })] 1
          { number := some 50, attempts := 0 + 1 },
         [Out.reply Reply.tooHigh]) ∧
      dbLookup (guess_number_game [(1, { number := some 50, attempts := 0 })]
          1 "30" 7).1 1 = some { number := some 50, attempts := 0 + 1 }) ∧
    ((30 : Int) = 50 →
      (guess_number_game [(1, { number := some 50, attempts := 0 })]
          1 "30" 7).2 = [Out.reply (Reply.correct (0 + 1))] ∧
      dbLookup (guess_number_game [(1, { number := some 50, attempts := 0 })]
          1 "30" 7).1 1 = none)) :=
  ⟨by decide, by decide, by decide,
    c4_ordering_rule _ 1 50 0 "30" 7 30 (by decide) (by decide) (by decide)⟩

/-- C5 counterexample: with target `50` and attempts `0`, the numeric
out-of-range guess `"200"` (and `50 < 200`) yields the "too high" reply, not
the "too low" reply the claim states. -/
theorem c5_out_of_range_counterexample :
    dbLookup [(1, { number := some 50, attempts := 0 })] 1 =
      some { number := some 50, attempts := 0 } ∧
    (50 : Int) < 200 ∧
    (guess_number_game [(1, { number := some 50, attempts := 0 })]
        1 "200" 7).2 = [Out.reply Reply.tooHigh] ∧
    (guess_number_game [(1, { number := some 50, attempts := 0 })]
        1 "200" 7).2 ≠ [Out.reply Reply.tooLow] := by
  decide

/-- C5 (amended): after user `a` starts a game (store has `a` with target `t`
and attempts `0`), the numeric but out-of-range guess `"200"` is still
evaluated by the ordering rule, and since `t < 200` the engine responds
"too high" with attempts becoming `1`. -/
theorem c5_out_of_range_amended (db : GamesDb) (a : Nat) (t r : Int)
    (hl : dbLookup db a = some { number := some t, attempts := 0 })
    (ht : t ≠ 0) (hT : t < 200) :
    guess_number_game db a "200" r =
      (dbInsert db a { number := some t, attempts := 1 },
       [Out.reply Reply.tooHigh]) ∧
    dbLookup (guess_number_game db a "200" r).1 a =
      some { number := some t, attempts := 1 } := by
  have hp : pyInt "200" = some 200 := by decide
  have h := guess_number_game_high db a t 0 "200" r 200 hl ht hp hT
  have h01 : (0 : Int) + 1 = 1 := by norm_num
  rw [h01] at h
  rw [h]
  exact ⟨rfl, dbLookup_insert_self db a _⟩

theorem c5_out_of_range_amended_witness :
    dbLookup [(1, { number := some 50, attempts := 0 })] 1 =
      some { number := some 50, attempts := 0 } ∧
    (50 : Int) ≠ 0 ∧ (50 : Int) < 200 ∧
    (guess_number_game [(1, { number := some 50, attempts := 0 })] 1 "200" 7 =
      (dbInsert [(1, { number := some 50, attempts := 0 })] 1
        { number := some 50, attempts := 1 },
       [Out.reply Reply.tooHigh]) ∧
    dbLookup (guess_number_game [(1, { number := some 50, attempts := 0 })]
        1 "200" 7).1 1 = some { number := some 50, attempts := 1 }) :=
  ⟨by decide, by decide, by decide,
    c5_out_of_range_amended _ 1 50 7 (by decide) (by decide) (by decide)⟩

/-- C6: a message from a user with an active game session is handled by the
game engine and is never forwarded to any AI chat adapter. -/
theorem c6_active_session_never_ai (cfg : Bool) (db : GamesDb) (uid : Nat)
    (s : GameSession) (text : String) (r : Int)
    (hl : dbLookup db uid = some s) (ht : numTruthy s.number = true) :
    handle_message cfg db uid text r = guess_number_game db uid text r ∧
    ∀ o ∈ (handle_message cfg db uid text r).2, isCallAI o = false := by
  have hg : activeGuard db uid = true := by
    simp [activeGuard, hl, ht]
  have hmain : handle_message cfg db uid text r =
      guess_number_game db uid text r := by
    simp [handle_message, hg]
  refine ⟨hmain, ?_⟩
  rw [hmain]
  exact guess_number_game_no_callAI db uid text r

theorem c6_active_session_never_ai_witness :
    dbLookup [(1, { number := some 50, attempts := 0 })] 1 =
      some { number := some 50, attempts := 0 } ∧
    numTruthy (some (50 : Int)) = true ∧
    (handle_message true [(1, { number := some 50, attempts := 0 })]
        1 "hello" 7 =
      guess_number_game [(1, { number := some 50, attempts := 0 })]
        1 "hello" 7 ∧
    ∀ o ∈ (handle_message true [(1, { number := some 50, attempts := 0 })]
        1 "hello" 7).2, isCallAI o = false) :=
  ⟨by decide, by decide,
    c6_active_session_never_ai true [(1, { number := some 50, attempts := 0 })]
      1 { number := some 50, attempts := 0 } "hello" 7 (by decide) (by decide)⟩

/-- C7: a free-text message that does not start with the command marker, from
a user failing the active-session guard, is forwarded to exactly one AI
adapter: Gemini when configured, else the ChatGPT fallback. -/
theorem c7_no_session_exactly_one_ai (cfg : Bool) (db : GamesDb) (uid : Nat)
    (text : String) (r : Int) (hg : activeGuard db uid = false)
    (hs : startsWithChar text '/' = false) :
    handle_message cfg db uid text r =
      (db, [Out.reply Reply.thinking,
            Out.callAI (if cfg then Provider.gemini else Provider.chatgpt)
              text]) ∧
    (handle_message cfg db uid text r).2.filter isCallAI =
      [Out.callAI (if cfg then Provider.gemini else Provider.chatgpt) text] := by
  have hmain : handle_message cfg db uid text r =
      (db, [Out.reply Reply.thinking,
            Out.callAI (if cfg then Provider.gemini else Provider.chatgpt)
              text]) := by
    simp [handle_message, hg, hs]
  refine ⟨hmain, ?_⟩
  rw [hmain]
  simp [isCallAI]

theorem c7_no_session_exactly_one_ai_witness :
    activeGuard [] 1 = false ∧ startsWithChar "hi" '/' = false ∧
    (handle_message false [] 1 "hi" 7 =
      ([], [Out.reply Reply.thinking,
            Out.callAI (if (false : Bool) then Provider.gemini
              else Provider.chatgpt) "hi"]) ∧
    (handle_message false [] 1 "hi" 7).2.filter isCallAI =
      [Out.callAI (if (false : Bool) then Provider.gemini
        else Provider.chatgpt) "hi"]) :=
  ⟨by decide, by decide,
    c7_no_session_exactly_one_ai false [] 1 "hi" 7 (by decide) (by decide)⟩

/-- C8: a broadcast invocation by a user not in the admin list only yields the
authorization-denied reply: the store is unchanged and no broadcast action is
performed. -/
theorem c8_non_admin_broadcast_denied (admins : List Nat) (db : GamesDb)
    (uid : Nat) (args : List String) (h : uid ∉ admins) :
    broadcast_command admins db uid args = (db, [Out.reply Reply.adminOnly]) ∧
    ∀ m, Out.reply (Reply.broadcastSent m) ∉
      (broadcast_command admins db uid args).2 := by
  have hmain : broadcast_command admins db uid args =
      (db, [Out.reply Reply.adminOnly]) := by
    simp [broadcast_command, h]
  refine ⟨hmain, ?_⟩
  rw [hmain]
  simp

theorem c8_non_admin_broadcast_denied_witness :
    (1 : Nat) ∉ [7] ∧
    (broadcast_command [7] [(2, { number := some 9, attempts := 0 })] 1 ["x"] =
      ([(2, { number := some 9, attempts := 0 })],
       [Out.reply Reply.adminOnly]) ∧
    ∀ m, Out.reply (Reply.broadcastSent m) ∉
      (broadcast_command [7] [(2, { number := some 9, attempts := 0 })]
        1 ["x"]).2) :=
  ⟨by decide, c8_non_admin_broadcast_denied [7] _ 1 ["x"] (by decide)⟩

/-- C9: a start-game command (text beginning with the slash marker) issued
while the user's session is active changes nothing: the target is not
re-randomized and the attempts counter is not reset; the handler only replies
"please send a number". -/
theorem c9_start_while_active_idempotent (db : GamesDb) (uid : Nat)
    (s : GameSession) (text : String) (r : Int)
    (hl : dbLookup db uid = some s) (ht : numTruthy s.number = true)
    (hc : (stripChars text.toList).head? = some '/') :
    guess_number_game db uid text r = (db, [Out.reply Reply.sendNumber]) ∧
    dbLookup (guess_number_game db uid text r).1 uid = some s := by
  have hp := pyInt_head_slash text hc
  have hmain := guess_number_game_nonnum db uid s text r hl ht hp
  refine ⟨hmain, ?_⟩
  rw [hmain]
  exact hl

theorem c9_start_while_active_idempotent_witness :
    dbLookup [(1, { number := some 50, attempts := 3 })] 1 =
      some { number := some 50, attempts := 3 } ∧
    numTruthy (some (50 : Int)) = true ∧
    (stripChars "/game".toList).head? = some '/' ∧
    (guess_number_game [(1, { number := some 50, attempts := 3 })]
        1 "/game" 7 =
      ([(1, { number := some 50, attempts := 3 })],
       [Out.reply Reply.sendNumber]) ∧
    dbLookup (guess_number_game [(1, { number := some 50, attempts := 3 })]
        1 "/game" 7).1 1 = some { number := some 50, attempts := 3 }) :=
  ⟨by decide, by decide, by decide,
    c9_start_while_active_idempotent [(1, { number := some 50, attempts := 3 })]
      1 { number := some 50, attempts := 3 } "/game" 7 (by decide) (by decide)
      (by decide)⟩

/-- C10: starting from the empty store, after any sequence of dispatched
events whose random draws lie in `[1, 100]`, every stored session has a target
in `[1, 100]` (never the `None`/`0` placeholder) and a non-negative attempts
counter; consequently the "falsy target" routing guard coincides with "the
user has an entry in the store". -/
theorem c10_store_invariant (cfg : Bool) (admins : List Nat) (evs : List Event)
    (hv : ∀ e ∈ evs, drawValid e) :
    dbInv (runEvents cfg admins [] evs) ∧
    ∀ uid, activeGuard (runEvents cfg admins [] evs) uid =
      (dbLookup (runEvents cfg admins [] evs) uid).isSome := by
  have hinv : dbInv (runEvents cfg admins [] evs) := by
    refine runEvents_preserves_inv cfg admins evs [] ?_ hv
    intro p hp
    simp at hp
  exact ⟨hinv, activeGuard_eq_isSome _ hinv⟩

theorem c10_store_invariant_witness :
    (∀ e ∈ [Event.cmdGame 1 "/game" 42, Event.msgText 1 "30" 7,
            Event.cmdBroadcast 2 [], Event.cmdOther 3], drawValid e) ∧
    (dbInv (runEvents true [5] [] [Event.cmdGame 1 "/game" 42,
        Event.msgText 1 "30" 7, Event.cmdBroadcast 2 [], Event.cmdOther 3]) ∧
    ∀ uid, activeGuard (runEvents true [5] [] [Event.cmdGame 1 "/game" 42,
        Event.msgText 1 "30" 7, Event.cmdBroadcast 2 [], Event.cmdOther 3])
        uid =
      (dbLookup (runEvents true [5] [] [Event.cmdGame 1 "/game" 42,
        Event.msgText 1 "30" 7, Event.cmdBroadcast 2 [], Event.cmdOther 3])
        uid).isSome) :=
  ⟨by decide, c10_store_invariant true [5] _ (by decide)⟩
